import Mathlib

/-!
Shallow embedding of `src/services/seasons/service.go` (package `seasons` of
gohtb) together with the collaborators the spec describes (the shared rate
limiter, the generated v4 HTTP client and `common.Parse`), and proofs of the
spec claims about the request-envelope pipeline.

The six public operations (`Handle.Rewards`, `Handle.UserRank`,
`Handle.UserFollowers`, `Service.List`, `Service.Machines`,
`Service.ActiveMachine`) are translated line by line from the source.  The
collaborators are not part of the given source, so they are modelled from the
spec, each with a doc comment saying so.
-/

set_option autoImplicit false

namespace GoHTB

/-- Go `error` values are opaque to the pipeline; we model them as a concrete
inductive so that distinct errors are distinguishable and theorems can
quantify over arbitrary transport and decode errors.  `canceled` models
`context.Canceled`, the cancellation error produced at rate-limit admission. -/
inductive Err : Type where
  | canceled : Err
  | transport : Nat → Err
  | decode : Nat → Err
deriving DecidableEq, Repr

/-- Modelled from the spec: a raw transport-level HTTP response (status code
and body bytes), the value returned by a generated endpoint on transport
success. -/
structure RawResponse where
  statusCode : Nat
  body : List Nat
deriving DecidableEq, Repr

/-- Modelled from the spec: `common.ResponseMeta`, the diagnostic metadata
about an HTTP exchange (the status code); populated even on decode failure
where a raw response was obtained. -/
structure ResponseMeta where
  StatusCode : Nat
deriving DecidableEq, Repr

/-- The Go zero value `common.ResponseMeta{}`. -/
def ResponseMeta.zero : ResponseMeta := ⟨0⟩

/-- Modelled from the spec: the status-200 branch of a generated parse result;
its `Data` field holds the operation-specific payload. -/
structure Json200 (α : Type) where
  Data : α
deriving DecidableEq, Repr

/-- Modelled from the spec: the result of a generated `Parse…Response`
function.  In the generated Go client `JSON200` is a pointer, so `none`
models a nil `JSON200`. -/
structure ParsedResponse (α : Type) where
  JSON200 : Option (Json200 α)
deriving DecidableEq, Repr

/-- Modelled from the spec: `common.Parse` applies the generated parse
function to the raw response, and independently of the parse outcome builds a
`ResponseMeta` from the raw response, so that metadata such as the status
code is available to the caller even when body parsing failed.  It returns
the parse outcome (Go: `parsed`/`err`) together with that meta. -/
def Parse {α : Type} (resp : RawResponse)
    (parseFn : RawResponse → Except Err (ParsedResponse α)) :
    Except Err (ParsedResponse α) × ResponseMeta :=
  (parseFn resp, ⟨resp.statusCode⟩)

/-- Modelled from the spec: a caller-supplied `context.Context`, reduced to
its cancellation state. -/
structure Context where
  cancelled : Bool
deriving DecidableEq, Repr

/-- Modelled from the spec: the shared rate limiter.  Its admission policy is
opaque (an open question in the spec), so it carries no state here; its one
operation is `Wrap`. -/
structure Limiter
deriving DecidableEq, Repr

/-- Modelled from the spec: `Limiter().Wrap(ctx)` wraps a context so that use
of the wrapped context blocks on admission until a permit is available or the
original context is cancelled.  In this timeless model a permit is always
eventually available, so the wrapped context is cancelled exactly when the
original one is. -/
def Limiter.Wrap (_ : Limiter) (ctx : Context) : Context := ctx

/-- Instrumentation of one pipeline call: how many raw HTTP requests were
issued and how many times `common.Parse` was invoked (the stub call counters
of the spec's P1). -/
structure Trace where
  netCalls : Nat
  parseCalls : Nat
deriving DecidableEq, Repr

/-- Modelled from the spec: a generated low-level endpoint, given as a stub
behavior assigning to every parameter value the transport result its HTTP
request would produce when actually issued. -/
structure Endpoint (π : Type) where
  behavior : π → Except Err RawResponse

/-- Modelled from the spec: invoking a generated endpoint with the
limiter-wrapped context.  If the context is cancelled, admission fails with
the cancellation error `Err.canceled` and the HTTP request is never issued
(0 network calls); otherwise the request is issued exactly once and the stub
behavior gives its transport result. -/
def Endpoint.invoke {π : Type} (e : Endpoint π) (ctx : Context) (p : π) :
    Except Err RawResponse × Nat :=
  if ctx.cancelled then (Except.error Err.canceled, 0)
  else (e.behavior p, 1)

/-- Modelled from the spec: the generated v4 API surface used by the seasons
service, one endpoint per remote operation. -/
structure V4Api where
  GetSeasonRewards : Endpoint Int
  GetSeasonUserRank : Endpoint Int
  GetSeasonUserFollowers : Endpoint Int
  GetSeasonList : Endpoint Unit
  GetSeasonMachines : Endpoint Unit
  GetSeasonMachineActive : Endpoint Unit

/-- Modelled from the spec: the shared `service.Client`, exposing the
generated v4 API and the shared limiter. -/
structure Client where
  v4 : V4Api

/-- `client.V4()` of the Go `service.Client` interface. -/
def Client.V4 (c : Client) : V4Api := c.v4

/-- `client.Limiter()` of the Go `service.Client` interface. -/
def Client.Limiter (_ : Client) : Limiter := ⟨⟩

/-- Modelled from the spec: `service.Base` stores the shared client. -/
structure Base where
  Client : Client

/-- Modelled from the spec: `service.NewBase` stores the shared client. -/
def NewBase (client : Client) : Base := ⟨client⟩

/-- The seasons `Service` (modelled from the spec: it holds only the base). -/
structure Service where
  base : Base

/-- Source `NewService`. -/
def NewService (client : Client) : Service := { base := NewBase client }

/-- A season `Handle` (modelled from the spec: exactly an integer id plus the
shared client reference, no further fields). -/
structure Handle where
  client : Client
  id : Int

/-- Source `Service.Season`: returns a handle holding the service's shared
client and the given id. -/
def Service.Season (s : Service) (id : Int) : Handle :=
  { client := s.base.Client, id := id }

/-- The outcome of running a Go function body: either a normal return of a
value together with a Go `error` (`none` models a nil error), or a runtime
panic (here: a nil-pointer dereference). -/
inductive GoResult (ρ : Type) : Type where
  | panic : GoResult ρ
  | ret : ρ → Option Err → GoResult ρ
deriving DecidableEq, Repr

/-- The full observable outcome of one public operation: the returned value
(or panic), the instrumentation trace, and the post-state of the receiver
(Go methods take their receiver by pointer, so the state-passing translation
returns the receiver). -/
structure OpOut (ρ σ : Type) where
  result : GoResult ρ
  trace : Trace
  recv : σ

/-- `RewardsResponse`, modelled from the spec: operation payload plus embedded
`common.ResponseMeta`; generic over the payload type of the generated client. -/
structure RewardsResponse (α : Type) where
  Data : α
  ResponseMeta : ResponseMeta
deriving DecidableEq, Repr

/-- `UserRankResponse`, modelled from the spec (same envelope shape). -/
structure UserRankResponse (α : Type) where
  Data : α
  ResponseMeta : ResponseMeta
deriving DecidableEq, Repr

/-- `UserFollowersResponse`, modelled from the spec (same envelope shape). -/
structure UserFollowersResponse (α : Type) where
  Data : α
  ResponseMeta : ResponseMeta
deriving DecidableEq, Repr

/-- `ListResponse`, modelled from the spec (same envelope shape). -/
structure ListResponse (α : Type) where
  Data : α
  ResponseMeta : ResponseMeta
deriving DecidableEq, Repr

/-- `MachinesResponse`, modelled from the spec (same envelope shape). -/
structure MachinesResponse (α : Type) where
  Data : α
  ResponseMeta : ResponseMeta
deriving DecidableEq, Repr

/-- `ActiveMachineResponse`, modelled from the spec (same envelope shape). -/
structure ActiveMachineResponse (α : Type) where
  Data : α
  ResponseMeta : ResponseMeta
deriving DecidableEq, Repr

section Operations

variable {α : Type} [Inhabited α]

/-- Translation of `Handle.Rewards` (src/services/seasons/service.go:40-55):
issue `GetSeasonRewards` under the limiter-wrapped context; on transport
error return the zero-valued envelope (zero `ResponseMeta`) and that error;
otherwise run `common.Parse`; on parse error return the envelope holding only
the meta and that error; otherwise return `parsed.JSON200.Data` (a nil
dereference panic when `JSON200` is nil), the meta and a nil error.  The
generated `v4Client.ParseGetSeasonRewardsResponse` is passed as `parseFn`. -/
def Handle.Rewards (h : Handle) (ctx : Context)
    (parseFn : RawResponse → Except Err (ParsedResponse α)) :
    OpOut (RewardsResponse α) Handle :=
  match (h.client.V4.GetSeasonRewards).invoke ((h.client.Limiter).Wrap ctx) h.id with
  | (Except.error err, n) =>
      ⟨GoResult.ret { Data := default, ResponseMeta := ResponseMeta.zero } (some err),
        ⟨n, 0⟩, h⟩
  | (Except.ok resp, n) =>
      match Parse resp parseFn with
      | (Except.error err, meta) =>
          ⟨GoResult.ret { Data := default, ResponseMeta := meta } (some err), ⟨n, 1⟩, h⟩
      | (Except.ok parsed, meta) =>
          match parsed.JSON200 with
          | none => ⟨GoResult.panic, ⟨n, 1⟩, h⟩
          | some j =>
              ⟨GoResult.ret { Data := j.Data, ResponseMeta := meta } none, ⟨n, 1⟩, h⟩

/-- Translation of `Handle.UserRank` (src/services/seasons/service.go:69-84):
same pipeline against `GetSeasonUserRank` and
`v4Client.ParseGetSeasonUserRankResponse` (passed as `parseFn`). -/
def Handle.UserRank (h : Handle) (ctx : Context)
    (parseFn : RawResponse → Except Err (ParsedResponse α)) :
    OpOut (UserRankResponse α) Handle :=
  match (h.client.V4.GetSeasonUserRank).invoke ((h.client.Limiter).Wrap ctx) h.id with
  | (Except.error err, n) =>
      ⟨GoResult.ret { Data := default, ResponseMeta := ResponseMeta.zero } (some err),
        ⟨n, 0⟩, h⟩
  | (Except.ok resp, n) =>
      match Parse resp parseFn with
      | (Except.error err, meta) =>
          ⟨GoResult.ret { Data := default, ResponseMeta := meta } (some err), ⟨n, 1⟩, h⟩
      | (Except.ok parsed, meta) =>
          match parsed.JSON200 with
          | none => ⟨GoResult.panic, ⟨n, 1⟩, h⟩
          | some j =>
              ⟨GoResult.ret { Data := j.Data, ResponseMeta := meta } none, ⟨n, 1⟩, h⟩

/-- Translation of `Handle.UserFollowers` (src/services/seasons/service.go:95-110):
same pipeline against `GetSeasonUserFollowers` and
`v4Client.ParseGetSeasonUserFollowersResponse` (passed as `parseFn`). -/
def Handle.UserFollowers (h : Handle) (ctx : Context)
    (parseFn : RawResponse → Except Err (ParsedResponse α)) :
    OpOut (UserFollowersResponse α) Handle :=
  match (h.client.V4.GetSeasonUserFollowers).invoke ((h.client.Limiter).Wrap ctx) h.id with
  | (Except.error err, n) =>
      ⟨GoResult.ret { Data := default, ResponseMeta := ResponseMeta.zero } (some err),
        ⟨n, 0⟩, h⟩
  | (Except.ok resp, n) =>
      match Parse resp parseFn with
      | (Except.error err, meta) =>
          ⟨GoResult.ret { Data := default, ResponseMeta := meta } (some err), ⟨n, 1⟩, h⟩
      | (Except.ok parsed, meta) =>
          match parsed.JSON200 with
          | none => ⟨GoResult.panic, ⟨n, 1⟩, h⟩
          | some j =>
              ⟨GoResult.ret { Data := j.Data, ResponseMeta := meta } none, ⟨n, 1⟩, h⟩

/-- Translation of `Service.List` (src/services/seasons/service.go:123-138):
same pipeline against the parameterless `GetSeasonList` (via `s.base.Client`)
and `v4Client.ParseGetSeasonListResponse` (passed as `parseFn`). -/
def Service.List (s : Service) (ctx : Context)
    (parseFn : RawResponse → Except Err (ParsedResponse α)) :
    OpOut (ListResponse α) Service :=
  match (s.base.Client.V4.GetSeasonList).invoke ((s.base.Client.Limiter).Wrap ctx) () with
  | (Except.error err, n) =>
      ⟨GoResult.ret { Data := default, ResponseMeta := ResponseMeta.zero } (some err),
        ⟨n, 0⟩, s⟩
  | (Except.ok resp, n) =>
      match Parse resp parseFn with
      | (Except.error err, meta) =>
          ⟨GoResult.ret { Data := default, ResponseMeta := meta } (some err), ⟨n, 1⟩, s⟩
      | (Except.ok parsed, meta) =>
          match parsed.JSON200 with
          | none => ⟨GoResult.panic, ⟨n, 1⟩, s⟩
          | some j =>
              ⟨GoResult.ret { Data := j.Data, ResponseMeta := meta } none, ⟨n, 1⟩, s⟩

/-- Translation of `Service.Machines` (src/services/seasons/service.go:153-168):
same pipeline against `GetSeasonMachines` and
`v4Client.ParseGetSeasonMachinesResponse` (passed as `parseFn`). -/
def Service.Machines (s : Service) (ctx : Context)
    (parseFn : RawResponse → Except Err (ParsedResponse α)) :
    OpOut (MachinesResponse α) Service :=
  match (s.base.Client.V4.GetSeasonMachines).invoke ((s.base.Client.Limiter).Wrap ctx) () with
  | (Except.error err, n) =>
      ⟨GoResult.ret { Data := default, ResponseMeta := ResponseMeta.zero } (some err),
        ⟨n, 0⟩, s⟩
  | (Except.ok resp, n) =>
      match Parse resp parseFn with
      | (Except.error err, meta) =>
          ⟨GoResult.ret { Data := default, ResponseMeta := meta } (some err), ⟨n, 1⟩, s⟩
      | (Except.ok parsed, meta) =>
          match parsed.JSON200 with
          | none => ⟨GoResult.panic, ⟨n, 1⟩, s⟩
          | some j =>
              ⟨GoResult.ret { Data := j.Data, ResponseMeta := meta } none, ⟨n, 1⟩, s⟩

/-- Translation of `Service.ActiveMachine` (src/services/seasons/service.go:181-196):
same pipeline against `GetSeasonMachineActive` and
`v4Client.ParseGetSeasonMachineActiveResponse` (passed as `parseFn`). -/
def Service.ActiveMachine (s : Service) (ctx : Context)
    (parseFn : RawResponse → Except Err (ParsedResponse α)) :
    OpOut (ActiveMachineResponse α) Service :=
  match (s.base.Client.V4.GetSeasonMachineActive).invoke ((s.base.Client.Limiter).Wrap ctx) () with
  | (Except.error err, n) =>
      ⟨GoResult.ret { Data := default, ResponseMeta := ResponseMeta.zero } (some err),
        ⟨n, 0⟩, s⟩
  | (Except.ok resp, n) =>
      match Parse resp parseFn with
      | (Except.error err, meta) =>
          ⟨GoResult.ret { Data := default, ResponseMeta := meta } (some err), ⟨n, 1⟩, s⟩
      | (Except.ok parsed, meta) =>
          match parsed.JSON200 with
          | none => ⟨GoResult.panic, ⟨n, 1⟩, s⟩
          | some j =>
              ⟨GoResult.ret { Data := j.Data, ResponseMeta := meta } none, ⟨n, 1⟩, s⟩

/-- Modelled from the spec: the generic four-step pipeline
`execute(ctx, rawCall, decode)`.  Wrap the context with the limiter; invoke
the raw call; on transport failure return the zero data and default meta with
that error, without decoding; on transport success run `common.Parse` with
the operation's parse function, returning the meta and the parse error on
decode failure, and otherwise the decoded payload `parsed.JSON200.Data`, the
meta and a nil error. -/
def execute (limiter : Limiter) (ctx : Context)
    (rawCall : Context → Except Err RawResponse × Nat)
    (parseFn : RawResponse → Except Err (ParsedResponse α)) :
    GoResult (α × ResponseMeta) × Trace :=
  match rawCall (limiter.Wrap ctx) with
  | (Except.error err, n) =>
      (GoResult.ret (default, ResponseMeta.zero) (some err), ⟨n, 0⟩)
  | (Except.ok resp, n) =>
      match Parse resp parseFn with
      | (Except.error err, meta) => (GoResult.ret (default, meta) (some err), ⟨n, 1⟩)
      | (Except.ok parsed, meta) =>
          match parsed.JSON200 with
          | none => (GoResult.panic, ⟨n, 1⟩)
          | some j => (GoResult.ret (j.Data, meta) none, ⟨n, 1⟩)

end Operations

/-- Repackage a generic pipeline outcome into an operation's typed envelope
(via the envelope constructor `mk`) and attach the unchanged receiver. -/
def packOut {α ρ σ : Type} (mk : α → ResponseMeta → ρ) (recv : σ) :
    GoResult (α × ResponseMeta) × Trace → OpOut ρ σ
  | (GoResult.panic, t) => ⟨GoResult.panic, t, recv⟩
  | (GoResult.ret (a, m) e, t) => ⟨GoResult.ret (mk a m) e, t, recv⟩

section PipelineLemmas

variable {α ρ σ : Type}

/-- The projections of `packOut`: trace and receiver pass through unchanged. -/
theorem packOut_trace (mk : α → ResponseMeta → ρ) (recv : σ)
    (x : GoResult (α × ResponseMeta) × Trace) : (packOut mk recv x).trace = x.2 := by
  rcases x with ⟨g, t⟩
  cases g with
  | panic => rfl
  | ret p e => rcases p with ⟨a, m⟩; rfl

theorem packOut_recv (mk : α → ResponseMeta → ρ) (recv : σ)
    (x : GoResult (α × ResponseMeta) × Trace) : (packOut mk recv x).recv = recv := by
  rcases x with ⟨g, t⟩
  cases g with
  | panic => rfl
  | ret p e => rcases p with ⟨a, m⟩; rfl

/-- On a cancelled context the endpoint fails with the cancellation error and
issues no HTTP request. -/
theorem Endpoint.invoke_cancelled {π : Type} (e : Endpoint π) (ctx : Context) (p : π)
    (hc : ctx.cancelled = true) : e.invoke ctx p = (Except.error Err.canceled, 0) := by
  simp [Endpoint.invoke, hc]

/-- An endpoint issues at most one HTTP request per invocation. -/
theorem Endpoint.invoke_snd_le_one {π : Type} (e : Endpoint π) (ctx : Context) (p : π) :
    (e.invoke ctx p).2 ≤ 1 := by
  unfold Endpoint.invoke
  split <;> simp

variable [Inhabited α]

/-- `execute` on the transport-error branch. -/
theorem execute_rawErr (L : Limiter) (ctx : Context)
    (rawCall : Context → Except Err RawResponse × Nat)
    (pf : RawResponse → Except Err (ParsedResponse α)) (e : Err) (n : Nat)
    (hr : rawCall (L.Wrap ctx) = (Except.error e, n)) :
    execute L ctx rawCall pf =
      (GoResult.ret (default, ResponseMeta.zero) (some e), ⟨n, 0⟩) := by
  simp [execute, hr]

/-- `execute` on the decode-error branch. -/
theorem execute_parseErr (L : Limiter) (ctx : Context)
    (rawCall : Context → Except Err RawResponse × Nat)
    (pf : RawResponse → Except Err (ParsedResponse α))
    (resp : RawResponse) (n : Nat) (e : Err)
    (hr : rawCall (L.Wrap ctx) = (Except.ok resp, n))
    (hp : pf resp = Except.error e) :
    execute L ctx rawCall pf =
      (GoResult.ret (default, (Parse resp pf).2) (some e), ⟨n, 1⟩) := by
  simp [execute, Parse, hr, hp]

/-- `execute` on the full-success branch. -/
theorem execute_ok (L : Limiter) (ctx : Context)
    (rawCall : Context → Except Err RawResponse × Nat)
    (pf : RawResponse → Except Err (ParsedResponse α))
    (resp : RawResponse) (n : Nat) (parsed : ParsedResponse α) (j : Json200 α)
    (hr : rawCall (L.Wrap ctx) = (Except.ok resp, n))
    (hp : pf resp = Except.ok parsed) (hj : parsed.JSON200 = some j) :
    execute L ctx rawCall pf =
      (GoResult.ret (j.Data, (Parse resp pf).2) none, ⟨n, 1⟩) := by
  simp [execute, Parse, hr, hp, hj]

/-- `execute` on the nil-`JSON200` branch: a nil-pointer dereference panic. -/
theorem execute_nilPanic (L : Limiter) (ctx : Context)
    (rawCall : Context → Except Err RawResponse × Nat)
    (pf : RawResponse → Except Err (ParsedResponse α))
    (resp : RawResponse) (n : Nat) (parsed : ParsedResponse α)
    (hr : rawCall (L.Wrap ctx) = (Except.ok resp, n))
    (hp : pf resp = Except.ok parsed) (hj : parsed.JSON200 = none) :
    execute L ctx rawCall pf = (GoResult.panic, ⟨n, 1⟩) := by
  simp [execute, Parse, hr, hp, hj]

/-- Exhaustive case analysis of one `execute` run. -/
theorem execute_cases (L : Limiter) (ctx : Context)
    (rawCall : Context → Except Err RawResponse × Nat)
    (pf : RawResponse → Except Err (ParsedResponse α)) :
    (∃ e n, rawCall (L.Wrap ctx) = (Except.error e, n) ∧
        execute L ctx rawCall pf =
          (GoResult.ret (default, ResponseMeta.zero) (some e), ⟨n, 0⟩)) ∨
    (∃ resp n e, rawCall (L.Wrap ctx) = (Except.ok resp, n) ∧
        pf resp = Except.error e ∧
        execute L ctx rawCall pf =
          (GoResult.ret (default, ⟨resp.statusCode⟩) (some e), ⟨n, 1⟩)) ∨
    (∃ resp n parsed, rawCall (L.Wrap ctx) = (Except.ok resp, n) ∧
        pf resp = Except.ok parsed ∧
        ((parsed.JSON200 = none ∧ execute L ctx rawCall pf = (GoResult.panic, ⟨n, 1⟩)) ∨
         (∃ j, parsed.JSON200 = some j ∧
            execute L ctx rawCall pf =
              (GoResult.ret (j.Data, ⟨resp.statusCode⟩) none, ⟨n, 1⟩)))) := by
  rcases h1 : rawCall (L.Wrap ctx) with ⟨res, n⟩
  cases res with
  | error e =>
      exact Or.inl ⟨e, n, rfl, execute_rawErr L ctx rawCall pf e n h1⟩
  | ok resp =>
      cases h2 : pf resp with
      | error e =>
          exact Or.inr (Or.inl ⟨resp, n, e, rfl, h2,
            execute_parseErr L ctx rawCall pf resp n e h1 h2⟩)
      | ok parsed =>
          cases h3 : parsed.JSON200 with
          | none =>
              exact Or.inr (Or.inr ⟨resp, n, parsed, rfl, h2,
                Or.inl ⟨h3, execute_nilPanic L ctx rawCall pf resp n parsed h1 h2 h3⟩⟩)
          | some j =>
              exact Or.inr (Or.inr ⟨resp, n, parsed, rfl, h2,
                Or.inr ⟨j, h3, execute_ok L ctx rawCall pf resp n parsed j h1 h2 h3⟩⟩)

/-- In every `execute` outcome carrying a non-nil error, the data component is
the zero value. -/
theorem execute_some_err (L : Limiter) (ctx : Context)
    (rawCall : Context → Except Err RawResponse × Nat)
    (pf : RawResponse → Except Err (ParsedResponse α))
    (a : α) (m : ResponseMeta) (e : Err) (t : Trace)
    (hx : execute L ctx rawCall pf = (GoResult.ret (a, m) (some e), t)) :
    a = default := by
  rcases execute_cases L ctx rawCall pf with
      ⟨e1, n, h1, hq⟩ | ⟨resp, n, e1, h1, h2, hq⟩ |
      ⟨resp, n, parsed, h1, h2, ⟨h3, hq⟩ | ⟨j, h3, hq⟩⟩ <;>
    rw [hq] at hx <;>
    simp only [Prod.mk.injEq, GoResult.ret.injEq, Option.some.injEq] at hx
  · exact hx.1.1.1.symm
  · exact hx.1.1.1.symm
  · exact absurd hx.1 (by simp)
  · exact absurd hx.1.2 (by simp)

end PipelineLemmas

section PackLemmas

variable {α : Type} [Inhabited α]

/-- `Handle.Rewards` is the generic pipeline instantiated at
`GetSeasonRewards` and its parse function. -/
theorem rewards_pack (h : Handle) (ctx : Context)
    (pf : RawResponse → Except Err (ParsedResponse α)) :
    Handle.Rewards h ctx pf =
      packOut RewardsResponse.mk h
        (execute (h.client.Limiter) ctx
          (fun c => (h.client.V4.GetSeasonRewards).invoke c h.id) pf) := by
  rcases h1 : (h.client.V4.GetSeasonRewards).invoke ((h.client.Limiter).Wrap ctx) h.id
    with ⟨res, n⟩
  cases res with
  | error e => simp [Handle.Rewards, execute, packOut, h1]
  | ok resp =>
      cases h2 : pf resp with
      | error e => simp [Handle.Rewards, execute, packOut, Parse, h1, h2]
      | ok parsed =>
          cases h3 : parsed.JSON200 with
          | none => simp [Handle.Rewards, execute, packOut, Parse, h1, h2, h3]
          | some j => simp [Handle.Rewards, execute, packOut, Parse, h1, h2, h3]

/-- `Handle.UserRank` is the generic pipeline instantiated at
`GetSeasonUserRank` and its parse function. -/
theorem userRank_pack (h : Handle) (ctx : Context)
    (pf : RawResponse → Except Err (ParsedResponse α)) :
    Handle.UserRank h ctx pf =
      packOut UserRankResponse.mk h
        (execute (h.client.Limiter) ctx
          (fun c => (h.client.V4.GetSeasonUserRank).invoke c h.id) pf) := by
  rcases h1 : (h.client.V4.GetSeasonUserRank).invoke ((h.client.Limiter).Wrap ctx) h.id
    with ⟨res, n⟩
  cases res with
  | error e => simp [Handle.UserRank, execute, packOut, h1]
  | ok resp =>
      cases h2 : pf resp with
      | error e => simp [Handle.UserRank, execute, packOut, Parse, h1, h2]
      | ok parsed =>
          cases h3 : parsed.JSON200 with
          | none => simp [Handle.UserRank, execute, packOut, Parse, h1, h2, h3]
          | some j => simp [Handle.UserRank, execute, packOut, Parse, h1, h2, h3]

/-- `Handle.UserFollowers` is the generic pipeline instantiated at
`GetSeasonUserFollowers` and its parse function. -/
theorem userFollowers_pack (h : Handle) (ctx : Context)
    (pf : RawResponse → Except Err (ParsedResponse α)) :
    Handle.UserFollowers h ctx pf =
      packOut UserFollowersResponse.mk h
        (execute (h.client.Limiter) ctx
          (fun c => (h.client.V4.GetSeasonUserFollowers).invoke c h.id) pf) := by
  rcases h1 : (h.client.V4.GetSeasonUserFollowers).invoke ((h.client.Limiter).Wrap ctx) h.id
    with ⟨res, n⟩
  cases res with
  | error e => simp [Handle.UserFollowers, execute, packOut, h1]
  | ok resp =>
      cases h2 : pf resp with
      | error e => simp [Handle.UserFollowers, execute, packOut, Parse, h1, h2]
      | ok parsed =>
          cases h3 : parsed.JSON200 with
          | none => simp [Handle.UserFollowers, execute, packOut, Parse, h1, h2, h3]
          | some j => simp [Handle.UserFollowers, execute, packOut, Parse, h1, h2, h3]

/-- `Service.List` is the generic pipeline instantiated at `GetSeasonList`
and its parse function. -/
theorem list_pack (s : Service) (ctx : Context)
    (pf : RawResponse → Except Err (ParsedResponse α)) :
    Service.List s ctx pf =
      packOut ListResponse.mk s
        (execute (s.base.Client.Limiter) ctx
          (fun c => (s.base.Client.V4.GetSeasonList).invoke c ()) pf) := by
  rcases h1 : (s.base.Client.V4.GetSeasonList).invoke ((s.base.Client.Limiter).Wrap ctx) ()
    with ⟨res, n⟩
  cases res with
  | error e => simp [Service.List, execute, packOut, h1]
  | ok resp =>
      cases h2 : pf resp with
      | error e => simp [Service.List, execute, packOut, Parse, h1, h2]
      | ok parsed =>
          cases h3 : parsed.JSON200 with
          | none => simp [Service.List, execute, packOut, Parse, h1, h2, h3]
          | some j => simp [Service.List, execute, packOut, Parse, h1, h2, h3]

/-- `Service.Machines` is the generic pipeline instantiated at
`GetSeasonMachines` and its parse function. -/
theorem machines_pack (s : Service) (ctx : Context)
    (pf : RawResponse → Except Err (ParsedResponse α)) :
    Service.Machines s ctx pf =
      packOut MachinesResponse.mk s
        (execute (s.base.Client.Limiter) ctx
          (fun c => (s.base.Client.V4.GetSeasonMachines).invoke c ()) pf) := by
  rcases h1 : (s.base.Client.V4.GetSeasonMachines).invoke ((s.base.Client.Limiter).Wrap ctx) ()
    with ⟨res, n⟩
  cases res with
  | error e => simp [Service.Machines, execute, packOut, h1]
  | ok resp =>
      cases h2 : pf resp with
      | error e => simp [Service.Machines, execute, packOut, Parse, h1, h2]
      | ok parsed =>
          cases h3 : parsed.JSON200 with
          | none => simp [Service.Machines, execute, packOut, Parse, h1, h2, h3]
          | some j => simp [Service.Machines, execute, packOut, Parse, h1, h2, h3]

/-- `Service.ActiveMachine` is the generic pipeline instantiated at
`GetSeasonMachineActive` and its parse function. -/
theorem activeMachine_pack (s : Service) (ctx : Context)
    (pf : RawResponse → Except Err (ParsedResponse α)) :
    Service.ActiveMachine s ctx pf =
      packOut ActiveMachineResponse.mk s
        (execute (s.base.Client.Limiter) ctx
          (fun c => (s.base.Client.V4.GetSeasonMachineActive).invoke c ()) pf) := by
  rcases h1 :
      (s.base.Client.V4.GetSeasonMachineActive).invoke ((s.base.Client.Limiter).Wrap ctx) ()
    with ⟨res, n⟩
  cases res with
  | error e => simp [Service.ActiveMachine, execute, packOut, h1]
  | ok resp =>
      cases h2 : pf resp with
      | error e => simp [Service.ActiveMachine, execute, packOut, Parse, h1, h2]
      | ok parsed =>
          cases h3 : parsed.JSON200 with
          | none => simp [Service.ActiveMachine, execute, packOut, Parse, h1, h2, h3]
          | some j => simp [Service.ActiveMachine, execute, packOut, Parse, h1, h2, h3]

end PackLemmas

section MoreLemmas

variable {α ρ σ : Type}

/-- Inversion of `packOut` on a normal return: the generic pipeline produced
the same error and trace, and the envelope is built by the constructor. -/
theorem packOut_ret_inv (mk : α → ResponseMeta → ρ) (recv : σ)
    (x : GoResult (α × ResponseMeta) × Trace) (r : ρ) (e? : Option Err)
    (t : Trace) (recv' : σ)
    (hx : packOut mk recv x = ⟨GoResult.ret r e?, t, recv'⟩) :
    ∃ a m, x = (GoResult.ret (a, m) e?, t) ∧ r = mk a m := by
  rcases x with ⟨g, t'⟩
  cases g with
  | panic =>
      simp only [packOut] at hx
      exact absurd (congrArg OpOut.result hx) (by simp)
  | ret p e =>
      rcases p with ⟨a, m⟩
      simp only [packOut] at hx
      have hres := congrArg OpOut.result hx
      have htr := congrArg OpOut.trace hx
      simp only at hres htr
      injection hres with hdata herr
      exact ⟨a, m, by rw [herr, htr], hdata.symm⟩

/-- `packOut` panics exactly when the generic pipeline panics. -/
theorem packOut_panic_iff (mk : α → ResponseMeta → ρ) (recv : σ)
    (x : GoResult (α × ResponseMeta) × Trace) :
    (packOut mk recv x).result = GoResult.panic ↔ x.1 = GoResult.panic := by
  rcases x with ⟨g, t⟩
  cases g with
  | panic => simp [packOut]
  | ret p e => rcases p with ⟨a, m⟩; simp [packOut]

variable [Inhabited α]

/-- The pipeline issues exactly as many network calls as its raw call reports. -/
theorem execute_netCalls (L : Limiter) (ctx : Context)
    (rawCall : Context → Except Err RawResponse × Nat)
    (pf : RawResponse → Except Err (ParsedResponse α)) :
    (execute L ctx rawCall pf).2.netCalls = (rawCall (L.Wrap ctx)).2 := by
  rcases execute_cases L ctx rawCall pf with
      ⟨e, n, h1, hq⟩ | ⟨resp, n, e, h1, h2, hq⟩ |
      ⟨resp, n, parsed, h1, h2, ⟨h3, hq⟩ | ⟨j, h3, hq⟩⟩ <;>
    rw [hq, h1]

/-- The pipeline invokes `common.Parse` at most once. -/
theorem execute_parseCalls_le_one (L : Limiter) (ctx : Context)
    (rawCall : Context → Except Err RawResponse × Nat)
    (pf : RawResponse → Except Err (ParsedResponse α)) :
    (execute L ctx rawCall pf).2.parseCalls ≤ 1 := by
  rcases execute_cases L ctx rawCall pf with
      ⟨e, n, h1, hq⟩ | ⟨resp, n, e, h1, h2, hq⟩ |
      ⟨resp, n, parsed, h1, h2, ⟨h3, hq⟩ | ⟨j, h3, hq⟩⟩ <;>
    simp [hq]

/-- If every successful parse has a non-nil `JSON200`, the pipeline never
panics. -/
theorem execute_no_panic (L : Limiter) (ctx : Context)
    (rawCall : Context → Except Err RawResponse × Nat)
    (pf : RawResponse → Except Err (ParsedResponse α))
    (hpf : ∀ resp parsed, pf resp = Except.ok parsed → parsed.JSON200 ≠ none) :
    (execute L ctx rawCall pf).1 ≠ GoResult.panic := by
  rcases execute_cases L ctx rawCall pf with
      ⟨e, n, h1, hq⟩ | ⟨resp, n, e, h1, h2, hq⟩ |
      ⟨resp, n, parsed, h1, h2, ⟨h3, hq⟩ | ⟨j, h3, hq⟩⟩
  · rw [hq]; simp
  · rw [hq]; simp
  · exact absurd h3 (hpf resp parsed h2)
  · rw [hq]; simp

end MoreLemmas

/-- C8: each of the six public operations (Rewards, UserRank, UserFollowers,
List, Machines, ActiveMachine) is extensionally equal to the same generic
four-step pipeline `execute` — wrap the context with the limiter, invoke the
raw call, parse on transport success, assemble the envelope — instantiated
with that operation's raw network call and parse function and repackaged
into its envelope type, for every payload type, receiver, context and parse
function. -/
theorem C8_six_ops_are_one_pipeline (α : Type) [Inhabited α] :
    (∀ (h : Handle) (ctx : Context) (pf : RawResponse → Except Err (ParsedResponse α)),
        Handle.Rewards h ctx pf =
          packOut RewardsResponse.mk h
            (execute (h.client.Limiter) ctx
              (fun c => (h.client.V4.GetSeasonRewards).invoke c h.id) pf)) ∧
    (∀ (h : Handle) (ctx : Context) (pf : RawResponse → Except Err (ParsedResponse α)),
        Handle.UserRank h ctx pf =
          packOut UserRankResponse.mk h
            (execute (h.client.Limiter) ctx
              (fun c => (h.client.V4.GetSeasonUserRank).invoke c h.id) pf)) ∧
    (∀ (h : Handle) (ctx : Context) (pf : RawResponse → Except Err (ParsedResponse α)),
        Handle.UserFollowers h ctx pf =
          packOut UserFollowersResponse.mk h
            (execute (h.client.Limiter) ctx
              (fun c => (h.client.V4.GetSeasonUserFollowers).invoke c h.id) pf)) ∧
    (∀ (s : Service) (ctx : Context) (pf : RawResponse → Except Err (ParsedResponse α)),
        Service.List s ctx pf =
          packOut ListResponse.mk s
            (execute (s.base.Client.Limiter) ctx
              (fun c => (s.base.Client.V4.GetSeasonList).invoke c ()) pf)) ∧
    (∀ (s : Service) (ctx : Context) (pf : RawResponse → Except Err (ParsedResponse α)),
        Service.Machines s ctx pf =
          packOut MachinesResponse.mk s
            (execute (s.base.Client.Limiter) ctx
              (fun c => (s.base.Client.V4.GetSeasonMachines).invoke c ()) pf)) ∧
    (∀ (s : Service) (ctx : Context) (pf : RawResponse → Except Err (ParsedResponse α)),
        Service.ActiveMachine s ctx pf =
          packOut ActiveMachineResponse.mk s
            (execute (s.base.Client.Limiter) ctx
              (fun c => (s.base.Client.V4.GetSeasonMachineActive).invoke c ()) pf)) :=
  ⟨fun h ctx pf => rewards_pack h ctx pf,
   fun h ctx pf => userRank_pack h ctx pf,
   fun h ctx pf => userFollowers_pack h ctx pf,
   fun s ctx pf => list_pack s ctx pf,
   fun s ctx pf => machines_pack s ctx pf,
   fun s ctx pf => activeMachine_pack s ctx pf⟩

/-- C10: no public operation mutates its receiver: in the state-passing
translation, every operation returns its receiver unchanged — the Service's
base client and the Handle's id and client fields after any call equal those
before it, so repeated calls start from identical state. -/
theorem C10_operations_preserve_receiver (α : Type) [Inhabited α] :
    (∀ (h : Handle) (ctx : Context) (pf : RawResponse → Except Err (ParsedResponse α)),
        (Handle.Rewards h ctx pf).recv = h) ∧
    (∀ (h : Handle) (ctx : Context) (pf : RawResponse → Except Err (ParsedResponse α)),
        (Handle.UserRank h ctx pf).recv = h) ∧
    (∀ (h : Handle) (ctx : Context) (pf : RawResponse → Except Err (ParsedResponse α)),
        (Handle.UserFollowers h ctx pf).recv = h) ∧
    (∀ (s : Service) (ctx : Context) (pf : RawResponse → Except Err (ParsedResponse α)),
        (Service.List s ctx pf).recv = s ∧ (Service.List s ctx pf).recv.base.Client = s.base.Client) ∧
    (∀ (s : Service) (ctx : Context) (pf : RawResponse → Except Err (ParsedResponse α)),
        (Service.Machines s ctx pf).recv = s ∧
          (Service.Machines s ctx pf).recv.base.Client = s.base.Client) ∧
    (∀ (s : Service) (ctx : Context) (pf : RawResponse → Except Err (ParsedResponse α)),
        (Service.ActiveMachine s ctx pf).recv = s ∧
          (Service.ActiveMachine s ctx pf).recv.base.Client = s.base.Client) := by
  refine ⟨fun h ctx pf => ?_, fun h ctx pf => ?_, fun h ctx pf => ?_,
    fun s ctx pf => ⟨?_, ?_⟩, fun s ctx pf => ⟨?_, ?_⟩, fun s ctx pf => ⟨?_, ?_⟩⟩
  · rw [rewards_pack]; exact packOut_recv _ _ _
  · rw [userRank_pack]; exact packOut_recv _ _ _
  · rw [userFollowers_pack]; exact packOut_recv _ _ _
  · rw [list_pack]; exact packOut_recv _ _ _
  · rw [list_pack, packOut_recv]
  · rw [machines_pack]; exact packOut_recv _ _ _
  · rw [machines_pack, packOut_recv]
  · rw [activeMachine_pack]; exact packOut_recv _ _ _
  · rw [activeMachine_pack, packOut_recv]

/-- C6: `Service.Season id` returns a handle whose state is exactly the given
id and the service's shared client (the one held by the service's base); a
handle has no fields beyond these two; and no subsequent operation on the
handle modifies either field. -/
theorem C6_season_handle_state (α : Type) [Inhabited α] :
    (∀ (s : Service) (id : Int),
        Service.Season s id = { client := s.base.Client, id := id }) ∧
    (∀ h : Handle, h = { client := h.client, id := h.id }) ∧
    (∀ (s : Service) (id : Int) (ctx : Context)
        (pf : RawResponse → Except Err (ParsedResponse α)),
        (Handle.Rewards (Service.Season s id) ctx pf).recv.client = s.base.Client ∧
          (Handle.Rewards (Service.Season s id) ctx pf).recv.id = id) ∧
    (∀ (s : Service) (id : Int) (ctx : Context)
        (pf : RawResponse → Except Err (ParsedResponse α)),
        (Handle.UserRank (Service.Season s id) ctx pf).recv.client = s.base.Client ∧
          (Handle.UserRank (Service.Season s id) ctx pf).recv.id = id) ∧
    (∀ (s : Service) (id : Int) (ctx : Context)
        (pf : RawResponse → Except Err (ParsedResponse α)),
        (Handle.UserFollowers (Service.Season s id) ctx pf).recv.client = s.base.Client ∧
          (Handle.UserFollowers (Service.Season s id) ctx pf).recv.id = id) := by
  refine ⟨fun s id => rfl, fun h => rfl,
    fun s id ctx pf => ⟨?_, ?_⟩, fun s id ctx pf => ⟨?_, ?_⟩, fun s id ctx pf => ⟨?_, ?_⟩⟩
  · rw [rewards_pack, packOut_recv]; rfl
  · rw [rewards_pack, packOut_recv]; rfl
  · rw [userRank_pack, packOut_recv]; rfl
  · rw [userRank_pack, packOut_recv]; rfl
  · rw [userFollowers_pack, packOut_recv]; rfl
  · rw [userFollowers_pack, packOut_recv]; rfl

/-- C2: for every operation, if the raw network call returns a non-nil error,
the operation returns an envelope whose `ResponseMeta` is the zero value of
`ResponseMeta` together with that error unchanged, and the decode step
(`common.Parse`) is never invoked on that call (`parseCalls = 0`, and the
result is the same for every parse function). -/
theorem C2_transport_error_envelope (α : Type) [Inhabited α] :
    (∀ (h : Handle) (ctx : Context) (pf : RawResponse → Except Err (ParsedResponse α))
        (e : Err) (n : Nat),
        (h.client.V4.GetSeasonRewards).invoke ((h.client.Limiter).Wrap ctx) h.id =
          (Except.error e, n) →
        Handle.Rewards h ctx pf =
          ⟨GoResult.ret { Data := default, ResponseMeta := ResponseMeta.zero } (some e),
            ⟨n, 0⟩, h⟩) ∧
    (∀ (h : Handle) (ctx : Context) (pf : RawResponse → Except Err (ParsedResponse α))
        (e : Err) (n : Nat),
        (h.client.V4.GetSeasonUserRank).invoke ((h.client.Limiter).Wrap ctx) h.id =
          (Except.error e, n) →
        Handle.UserRank h ctx pf =
          ⟨GoResult.ret { Data := default, ResponseMeta := ResponseMeta.zero } (some e),
            ⟨n, 0⟩, h⟩) ∧
    (∀ (h : Handle) (ctx : Context) (pf : RawResponse → Except Err (ParsedResponse α))
        (e : Err) (n : Nat),
        (h.client.V4.GetSeasonUserFollowers).invoke ((h.client.Limiter).Wrap ctx) h.id =
          (Except.error e, n) →
        Handle.UserFollowers h ctx pf =
          ⟨GoResult.ret { Data := default, ResponseMeta := ResponseMeta.zero } (some e),
            ⟨n, 0⟩, h⟩) ∧
    (∀ (s : Service) (ctx : Context) (pf : RawResponse → Except Err (ParsedResponse α))
        (e : Err) (n : Nat),
        (s.base.Client.V4.GetSeasonList).invoke ((s.base.Client.Limiter).Wrap ctx) () =
          (Except.error e, n) →
        Service.List s ctx pf =
          ⟨GoResult.ret { Data := default, ResponseMeta := ResponseMeta.zero } (some e),
            ⟨n, 0⟩, s⟩) ∧
    (∀ (s : Service) (ctx : Context) (pf : RawResponse → Except Err (ParsedResponse α))
        (e : Err) (n : Nat),
        (s.base.Client.V4.GetSeasonMachines).invoke ((s.base.Client.Limiter).Wrap ctx) () =
          (Except.error e, n) →
        Service.Machines s ctx pf =
          ⟨GoResult.ret { Data := default, ResponseMeta := ResponseMeta.zero } (some e),
            ⟨n, 0⟩, s⟩) ∧
    (∀ (s : Service) (ctx : Context) (pf : RawResponse → Except Err (ParsedResponse α))
        (e : Err) (n : Nat),
        (s.base.Client.V4.GetSeasonMachineActive).invoke ((s.base.Client.Limiter).Wrap ctx) () =
          (Except.error e, n) →
        Service.ActiveMachine s ctx pf =
          ⟨GoResult.ret { Data := default, ResponseMeta := ResponseMeta.zero } (some e),
            ⟨n, 0⟩, s⟩) := by
  refine ⟨fun h ctx pf e n h1 => ?_, fun h ctx pf e n h1 => ?_, fun h ctx pf e n h1 => ?_,
    fun s ctx pf e n h1 => ?_, fun s ctx pf e n h1 => ?_, fun s ctx pf e n h1 => ?_⟩
  · rw [rewards_pack, execute_rawErr (h.client.Limiter) ctx
      (fun c => (h.client.V4.GetSeasonRewards).invoke c h.id) pf e n h1]
    rfl
  · rw [userRank_pack, execute_rawErr (h.client.Limiter) ctx
      (fun c => (h.client.V4.GetSeasonUserRank).invoke c h.id) pf e n h1]
    rfl
  · rw [userFollowers_pack, execute_rawErr (h.client.Limiter) ctx
      (fun c => (h.client.V4.GetSeasonUserFollowers).invoke c h.id) pf e n h1]
    rfl
  · rw [list_pack, execute_rawErr (s.base.Client.Limiter) ctx
      (fun c => (s.base.Client.V4.GetSeasonList).invoke c ()) pf e n h1]
    rfl
  · rw [machines_pack, execute_rawErr (s.base.Client.Limiter) ctx
      (fun c => (s.base.Client.V4.GetSeasonMachines).invoke c ()) pf e n h1]
    rfl
  · rw [activeMachine_pack, execute_rawErr (s.base.Client.Limiter) ctx
      (fun c => (s.base.Client.V4.GetSeasonMachineActive).invoke c ()) pf e n h1]
    rfl

/-- C3: for every operation, if the network call succeeds but `common.Parse`
returns a non-nil error, the operation returns that error together with an
envelope whose `ResponseMeta` equals exactly the meta value produced by
`common.Parse` from the raw response — in particular its status code is the
raw response's status code, so it remains available to the caller. -/
theorem C3_decode_error_keeps_meta (α : Type) [Inhabited α] :
    (∀ (h : Handle) (ctx : Context) (pf : RawResponse → Except Err (ParsedResponse α))
        (resp : RawResponse) (n : Nat) (e : Err),
        (h.client.V4.GetSeasonRewards).invoke ((h.client.Limiter).Wrap ctx) h.id =
          (Except.ok resp, n) →
        pf resp = Except.error e →
        Handle.Rewards h ctx pf =
            ⟨GoResult.ret { Data := default, ResponseMeta := (Parse resp pf).2 } (some e),
              ⟨n, 1⟩, h⟩ ∧
          (Parse resp pf).2.StatusCode = resp.statusCode) ∧
    (∀ (h : Handle) (ctx : Context) (pf : RawResponse → Except Err (ParsedResponse α))
        (resp : RawResponse) (n : Nat) (e : Err),
        (h.client.V4.GetSeasonUserRank).invoke ((h.client.Limiter).Wrap ctx) h.id =
          (Except.ok resp, n) →
        pf resp = Except.error e →
        Handle.UserRank h ctx pf =
            ⟨GoResult.ret { Data := default, ResponseMeta := (Parse resp pf).2 } (some e),
              ⟨n, 1⟩, h⟩ ∧
          (Parse resp pf).2.StatusCode = resp.statusCode) ∧
    (∀ (h : Handle) (ctx : Context) (pf : RawResponse → Except Err (ParsedResponse α))
        (resp : RawResponse) (n : Nat) (e : Err),
        (h.client.V4.GetSeasonUserFollowers).invoke ((h.client.Limiter).Wrap ctx) h.id =
          (Except.ok resp, n) →
        pf resp = Except.error e →
        Handle.UserFollowers h ctx pf =
            ⟨GoResult.ret { Data := default, ResponseMeta := (Parse resp pf).2 } (some e),
              ⟨n, 1⟩, h⟩ ∧
          (Parse resp pf).2.StatusCode = resp.statusCode) ∧
    (∀ (s : Service) (ctx : Context) (pf : RawResponse → Except Err (ParsedResponse α))
        (resp : RawResponse) (n : Nat) (e : Err),
        (s.base.Client.V4.GetSeasonList).invoke ((s.base.Client.Limiter).Wrap ctx) () =
          (Except.ok resp, n) →
        pf resp = Except.error e →
        Service.List s ctx pf =
            ⟨GoResult.ret { Data := default, ResponseMeta := (Parse resp pf).2 } (some e),
              ⟨n, 1⟩, s⟩ ∧
          (Parse resp pf).2.StatusCode = resp.statusCode) ∧
    (∀ (s : Service) (ctx : Context) (pf : RawResponse → Except Err (ParsedResponse α))
        (resp : RawResponse) (n : Nat) (e : Err),
        (s.base.Client.V4.GetSeasonMachines).invoke ((s.base.Client.Limiter).Wrap ctx) () =
          (Except.ok resp, n) →
        pf resp = Except.error e →
        Service.Machines s ctx pf =
            ⟨GoResult.ret { Data := default, ResponseMeta := (Parse resp pf).2 } (some e),
              ⟨n, 1⟩, s⟩ ∧
          (Parse resp pf).2.StatusCode = resp.statusCode) ∧
    (∀ (s : Service) (ctx : Context) (pf : RawResponse → Except Err (ParsedResponse α))
        (resp : RawResponse) (n : Nat) (e : Err),
        (s.base.Client.V4.GetSeasonMachineActive).invoke ((s.base.Client.Limiter).Wrap ctx) () =
          (Except.ok resp, n) →
        pf resp = Except.error e →
        Service.ActiveMachine s ctx pf =
            ⟨GoResult.ret { Data := default, ResponseMeta := (Parse resp pf).2 } (some e),
              ⟨n, 1⟩, s⟩ ∧
          (Parse resp pf).2.StatusCode = resp.statusCode) := by
  refine ⟨fun h ctx pf resp n e h1 h2 => ⟨?_, rfl⟩,
    fun h ctx pf resp n e h1 h2 => ⟨?_, rfl⟩,
    fun h ctx pf resp n e h1 h2 => ⟨?_, rfl⟩,
    fun s ctx pf resp n e h1 h2 => ⟨?_, rfl⟩,
    fun s ctx pf resp n e h1 h2 => ⟨?_, rfl⟩,
    fun s ctx pf resp n e h1 h2 => ⟨?_, rfl⟩⟩
  · rw [rewards_pack, execute_parseErr (h.client.Limiter) ctx
      (fun c => (h.client.V4.GetSeasonRewards).invoke c h.id) pf resp n e h1 h2]
    rfl
  · rw [userRank_pack, execute_parseErr (h.client.Limiter) ctx
      (fun c => (h.client.V4.GetSeasonUserRank).invoke c h.id) pf resp n e h1 h2]
    rfl
  · rw [userFollowers_pack, execute_parseErr (h.client.Limiter) ctx
      (fun c => (h.client.V4.GetSeasonUserFollowers).invoke c h.id) pf resp n e h1 h2]
    rfl
  · rw [list_pack, execute_parseErr (s.base.Client.Limiter) ctx
      (fun c => (s.base.Client.V4.GetSeasonList).invoke c ()) pf resp n e h1 h2]
    rfl
  · rw [machines_pack, execute_parseErr (s.base.Client.Limiter) ctx
      (fun c => (s.base.Client.V4.GetSeasonMachines).invoke c ()) pf resp n e h1 h2]
    rfl
  · rw [activeMachine_pack, execute_parseErr (s.base.Client.Limiter) ctx
      (fun c => (s.base.Client.V4.GetSeasonMachineActive).invoke c ()) pf resp n e h1 h2]
    rfl

/-- C4: for every operation, if both the network call and `common.Parse`
succeed (with the parsed result's `JSON200` present, the case in which the
dereferenced payload `parsed.JSON200.Data` exists), the operation returns a
nil error and an envelope whose `Data` equals exactly the decoded payload
and whose `ResponseMeta` equals the meta value produced by `common.Parse`. -/
theorem C4_success_envelope (α : Type) [Inhabited α] :
    (∀ (h : Handle) (ctx : Context) (pf : RawResponse → Except Err (ParsedResponse α))
        (resp : RawResponse) (n : Nat) (parsed : ParsedResponse α) (j : Json200 α),
        (h.client.V4.GetSeasonRewards).invoke ((h.client.Limiter).Wrap ctx) h.id =
          (Except.ok resp, n) →
        pf resp = Except.ok parsed → parsed.JSON200 = some j →
        Handle.Rewards h ctx pf =
          ⟨GoResult.ret { Data := j.Data, ResponseMeta := (Parse resp pf).2 } none,
            ⟨n, 1⟩, h⟩) ∧
    (∀ (h : Handle) (ctx : Context) (pf : RawResponse → Except Err (ParsedResponse α))
        (resp : RawResponse) (n : Nat) (parsed : ParsedResponse α) (j : Json200 α),
        (h.client.V4.GetSeasonUserRank).invoke ((h.client.Limiter).Wrap ctx) h.id =
          (Except.ok resp, n) →
        pf resp = Except.ok parsed → parsed.JSON200 = some j →
        Handle.UserRank h ctx pf =
          ⟨GoResult.ret { Data := j.Data, ResponseMeta := (Parse resp pf).2 } none,
            ⟨n, 1⟩, h⟩) ∧
    (∀ (h : Handle) (ctx : Context) (pf : RawResponse → Except Err (ParsedResponse α))
        (resp : RawResponse) (n : Nat) (parsed : ParsedResponse α) (j : Json200 α),
        (h.client.V4.GetSeasonUserFollowers).invoke ((h.client.Limiter).Wrap ctx) h.id =
          (Except.ok resp, n) →
        pf resp = Except.ok parsed → parsed.JSON200 = some j →
        Handle.UserFollowers h ctx pf =
          ⟨GoResult.ret { Data := j.Data, ResponseMeta := (Parse resp pf).2 } none,
            ⟨n, 1⟩, h⟩) ∧
    (∀ (s : Service) (ctx : Context) (pf : RawResponse → Except Err (ParsedResponse α))
        (resp : RawResponse) (n : Nat) (parsed : ParsedResponse α) (j : Json200 α),
        (s.base.Client.V4.GetSeasonList).invoke ((s.base.Client.Limiter).Wrap ctx) () =
          (Except.ok resp, n) →
        pf resp = Except.ok parsed → parsed.JSON200 = some j →
        Service.List s ctx pf =
          ⟨GoResult.ret { Data := j.Data, ResponseMeta := (Parse resp pf).2 } none,
            ⟨n, 1⟩, s⟩) ∧
    (∀ (s : Service) (ctx : Context) (pf : RawResponse → Except Err (ParsedResponse α))
        (resp : RawResponse) (n : Nat) (parsed : ParsedResponse α) (j : Json200 α),
        (s.base.Client.V4.GetSeasonMachines).invoke ((s.base.Client.Limiter).Wrap ctx) () =
          (Except.ok resp, n) →
        pf resp = Except.ok parsed → parsed.JSON200 = some j →
        Service.Machines s ctx pf =
          ⟨GoResult.ret { Data := j.Data, ResponseMeta := (Parse resp pf).2 } none,
            ⟨n, 1⟩, s⟩) ∧
    (∀ (s : Service) (ctx : Context) (pf : RawResponse → Except Err (ParsedResponse α))
        (resp : RawResponse) (n : Nat) (parsed : ParsedResponse α) (j : Json200 α),
        (s.base.Client.V4.GetSeasonMachineActive).invoke ((s.base.Client.Limiter).Wrap ctx) () =
          (Except.ok resp, n) →
        pf resp = Except.ok parsed → parsed.JSON200 = some j →
        Service.ActiveMachine s ctx pf =
          ⟨GoResult.ret { Data := j.Data, ResponseMeta := (Parse resp pf).2 } none,
            ⟨n, 1⟩, s⟩) := by
  refine ⟨fun h ctx pf resp n parsed j h1 h2 h3 => ?_,
    fun h ctx pf resp n parsed j h1 h2 h3 => ?_,
    fun h ctx pf resp n parsed j h1 h2 h3 => ?_,
    fun s ctx pf resp n parsed j h1 h2 h3 => ?_,
    fun s ctx pf resp n parsed j h1 h2 h3 => ?_,
    fun s ctx pf resp n parsed j h1 h2 h3 => ?_⟩
  · rw [rewards_pack, execute_ok (h.client.Limiter) ctx
      (fun c => (h.client.V4.GetSeasonRewards).invoke c h.id) pf resp n parsed j h1 h2 h3]
    rfl
  · rw [userRank_pack, execute_ok (h.client.Limiter) ctx
      (fun c => (h.client.V4.GetSeasonUserRank).invoke c h.id) pf resp n parsed j h1 h2 h3]
    rfl
  · rw [userFollowers_pack, execute_ok (h.client.Limiter) ctx
      (fun c => (h.client.V4.GetSeasonUserFollowers).invoke c h.id) pf resp n parsed j h1 h2 h3]
    rfl
  · rw [list_pack, execute_ok (s.base.Client.Limiter) ctx
      (fun c => (s.base.Client.V4.GetSeasonList).invoke c ()) pf resp n parsed j h1 h2 h3]
    rfl
  · rw [machines_pack, execute_ok (s.base.Client.Limiter) ctx
      (fun c => (s.base.Client.V4.GetSeasonMachines).invoke c ()) pf resp n parsed j h1 h2 h3]
    rfl
  · rw [activeMachine_pack, execute_ok (s.base.Client.Limiter) ctx
      (fun c => (s.base.Client.V4.GetSeasonMachineActive).invoke c ()) pf resp n parsed j h1 h2 h3]
    rfl

/-- C5: for every operation and every call whose supplied context is already
cancelled, the operation returns the cancellation error (with the zero-valued
envelope) and the underlying network operation is never issued
(`netCalls = 0`). -/
theorem C5_cancelled_context_no_network (α : Type) [Inhabited α] :
    (∀ (h : Handle) (ctx : Context) (pf : RawResponse → Except Err (ParsedResponse α)),
        ctx.cancelled = true →
        Handle.Rewards h ctx pf =
          ⟨GoResult.ret { Data := default, ResponseMeta := ResponseMeta.zero }
            (some Err.canceled), ⟨0, 0⟩, h⟩) ∧
    (∀ (h : Handle) (ctx : Context) (pf : RawResponse → Except Err (ParsedResponse α)),
        ctx.cancelled = true →
        Handle.UserRank h ctx pf =
          ⟨GoResult.ret { Data := default, ResponseMeta := ResponseMeta.zero }
            (some Err.canceled), ⟨0, 0⟩, h⟩) ∧
    (∀ (h : Handle) (ctx : Context) (pf : RawResponse → Except Err (ParsedResponse α)),
        ctx.cancelled = true →
        Handle.UserFollowers h ctx pf =
          ⟨GoResult.ret { Data := default, ResponseMeta := ResponseMeta.zero }
            (some Err.canceled), ⟨0, 0⟩, h⟩) ∧
    (∀ (s : Service) (ctx : Context) (pf : RawResponse → Except Err (ParsedResponse α)),
        ctx.cancelled = true →
        Service.List s ctx pf =
          ⟨GoResult.ret { Data := default, ResponseMeta := ResponseMeta.zero }
            (some Err.canceled), ⟨0, 0⟩, s⟩) ∧
    (∀ (s : Service) (ctx : Context) (pf : RawResponse → Except Err (ParsedResponse α)),
        ctx.cancelled = true →
        Service.Machines s ctx pf =
          ⟨GoResult.ret { Data := default, ResponseMeta := ResponseMeta.zero }
            (some Err.canceled), ⟨0, 0⟩, s⟩) ∧
    (∀ (s : Service) (ctx : Context) (pf : RawResponse → Except Err (ParsedResponse α)),
        ctx.cancelled = true →
        Service.ActiveMachine s ctx pf =
          ⟨GoResult.ret { Data := default, ResponseMeta := ResponseMeta.zero }
            (some Err.canceled), ⟨0, 0⟩, s⟩) := by
  refine ⟨fun h ctx pf hc => ?_, fun h ctx pf hc => ?_, fun h ctx pf hc => ?_,
    fun s ctx pf hc => ?_, fun s ctx pf hc => ?_, fun s ctx pf hc => ?_⟩
  · rw [rewards_pack, execute_rawErr (h.client.Limiter) ctx
      (fun c => (h.client.V4.GetSeasonRewards).invoke c h.id) pf Err.canceled 0
      (Endpoint.invoke_cancelled _ _ _ hc)]
    rfl
  · rw [userRank_pack, execute_rawErr (h.client.Limiter) ctx
      (fun c => (h.client.V4.GetSeasonUserRank).invoke c h.id) pf Err.canceled 0
      (Endpoint.invoke_cancelled _ _ _ hc)]
    rfl
  · rw [userFollowers_pack, execute_rawErr (h.client.Limiter) ctx
      (fun c => (h.client.V4.GetSeasonUserFollowers).invoke c h.id) pf Err.canceled 0
      (Endpoint.invoke_cancelled _ _ _ hc)]
    rfl
  · rw [list_pack, execute_rawErr (s.base.Client.Limiter) ctx
      (fun c => (s.base.Client.V4.GetSeasonList).invoke c ()) pf Err.canceled 0
      (Endpoint.invoke_cancelled _ _ _ hc)]
    rfl
  · rw [machines_pack, execute_rawErr (s.base.Client.Limiter) ctx
      (fun c => (s.base.Client.V4.GetSeasonMachines).invoke c ()) pf Err.canceled 0
      (Endpoint.invoke_cancelled _ _ _ hc)]
    rfl
  · rw [activeMachine_pack, execute_rawErr (s.base.Client.Limiter) ctx
      (fun c => (s.base.Client.V4.GetSeasonMachineActive).invoke c ()) pf Err.canceled 0
      (Endpoint.invoke_cancelled _ _ _ hc)]
    rfl

/-- C1: for every operation and every call that returns a non-nil error
(whether from the transport branch or the decode branch), the `Data` field of
the returned envelope equals the operation's zero/default value. -/
theorem C1_error_implies_zero_data (α : Type) [Inhabited α] :
    (∀ (h : Handle) (ctx : Context) (pf : RawResponse → Except Err (ParsedResponse α))
        (r : RewardsResponse α) (e : Err) (t : Trace) (h' : Handle),
        Handle.Rewards h ctx pf = ⟨GoResult.ret r (some e), t, h'⟩ → r.Data = default) ∧
    (∀ (h : Handle) (ctx : Context) (pf : RawResponse → Except Err (ParsedResponse α))
        (r : UserRankResponse α) (e : Err) (t : Trace) (h' : Handle),
        Handle.UserRank h ctx pf = ⟨GoResult.ret r (some e), t, h'⟩ → r.Data = default) ∧
    (∀ (h : Handle) (ctx : Context) (pf : RawResponse → Except Err (ParsedResponse α))
        (r : UserFollowersResponse α) (e : Err) (t : Trace) (h' : Handle),
        Handle.UserFollowers h ctx pf = ⟨GoResult.ret r (some e), t, h'⟩ → r.Data = default) ∧
    (∀ (s : Service) (ctx : Context) (pf : RawResponse → Except Err (ParsedResponse α))
        (r : ListResponse α) (e : Err) (t : Trace) (s' : Service),
        Service.List s ctx pf = ⟨GoResult.ret r (some e), t, s'⟩ → r.Data = default) ∧
    (∀ (s : Service) (ctx : Context) (pf : RawResponse → Except Err (ParsedResponse α))
        (r : MachinesResponse α) (e : Err) (t : Trace) (s' : Service),
        Service.Machines s ctx pf = ⟨GoResult.ret r (some e), t, s'⟩ → r.Data = default) ∧
    (∀ (s : Service) (ctx : Context) (pf : RawResponse → Except Err (ParsedResponse α))
        (r : ActiveMachineResponse α) (e : Err) (t : Trace) (s' : Service),
        Service.ActiveMachine s ctx pf = ⟨GoResult.ret r (some e), t, s'⟩ →
          r.Data = default) := by
  refine ⟨fun h ctx pf r e t h' heq => ?_, fun h ctx pf r e t h' heq => ?_,
    fun h ctx pf r e t h' heq => ?_, fun s ctx pf r e t s' heq => ?_,
    fun s ctx pf r e t s' heq => ?_, fun s ctx pf r e t s' heq => ?_⟩
  · rw [rewards_pack] at heq
    obtain ⟨a, m, hx, hr⟩ := packOut_ret_inv _ _ _ _ _ _ _ heq
    rw [hr]
    exact execute_some_err _ _ _ _ a m e t hx
  · rw [userRank_pack] at heq
    obtain ⟨a, m, hx, hr⟩ := packOut_ret_inv _ _ _ _ _ _ _ heq
    rw [hr]
    exact execute_some_err _ _ _ _ a m e t hx
  · rw [userFollowers_pack] at heq
    obtain ⟨a, m, hx, hr⟩ := packOut_ret_inv _ _ _ _ _ _ _ heq
    rw [hr]
    exact execute_some_err _ _ _ _ a m e t hx
  · rw [list_pack] at heq
    obtain ⟨a, m, hx, hr⟩ := packOut_ret_inv _ _ _ _ _ _ _ heq
    rw [hr]
    exact execute_some_err _ _ _ _ a m e t hx
  · rw [machines_pack] at heq
    obtain ⟨a, m, hx, hr⟩ := packOut_ret_inv _ _ _ _ _ _ _ heq
    rw [hr]
    exact execute_some_err _ _ _ _ a m e t hx
  · rw [activeMachine_pack] at heq
    obtain ⟨a, m, hx, hr⟩ := packOut_ret_inv _ _ _ _ _ _ _ heq
    rw [hr]
    exact execute_some_err _ _ _ _ a m e t hx

/-- The error-propagation contract of one operation run: at most one network
call and at most one decode per run (so nothing is retried), and the error
value produced by each failing step — rate-limit cancellation, transport
failure, decode failure — is returned to the caller unchanged, never
substituted by a default or swallowed.  `inv` is the raw-call result at the
limiter-wrapped context and `mk` the operation's envelope constructor. -/
def PropagatesErrors {α ρ σ : Type} [Inhabited α] (ctx : Context)
    (inv : Except Err RawResponse × Nat)
    (pf : RawResponse → Except Err (ParsedResponse α))
    (out : OpOut ρ σ) (mk : α → ResponseMeta → ρ) : Prop :=
  out.trace.netCalls ≤ 1 ∧
  out.trace.parseCalls ≤ 1 ∧
  (ctx.cancelled = true →
    out.result = GoResult.ret (mk default ResponseMeta.zero) (some Err.canceled)) ∧
  (∀ e n, inv = (Except.error e, n) →
    out.result = GoResult.ret (mk default ResponseMeta.zero) (some e)) ∧
  (∀ resp n e, inv = (Except.ok resp, n) → pf resp = Except.error e →
    out.result = GoResult.ret (mk default (Parse resp pf).2) (some e))

/-- Any instantiation of the generic pipeline with a raw call that issues at
most one request and fails with the cancellation error on a cancelled
context satisfies the error-propagation contract. -/
theorem execute_propagates {α ρ σ : Type} [Inhabited α] (L : Limiter) (ctx : Context)
    (rawCall : Context → Except Err RawResponse × Nat)
    (pf : RawResponse → Except Err (ParsedResponse α))
    (recv : σ) (mk : α → ResponseMeta → ρ)
    (hn : (rawCall (L.Wrap ctx)).2 ≤ 1)
    (hcancel : ctx.cancelled = true →
      rawCall (L.Wrap ctx) = (Except.error Err.canceled, 0)) :
    PropagatesErrors ctx (rawCall (L.Wrap ctx)) pf
      (packOut mk recv (execute L ctx rawCall pf)) mk := by
  refine ⟨?_, ?_, ?_, ?_, ?_⟩
  · rw [packOut_trace, execute_netCalls]
    exact hn
  · rw [packOut_trace]
    exact execute_parseCalls_le_one _ _ _ _
  · intro hc
    rw [execute_rawErr _ _ _ _ _ _ (hcancel hc)]
    rfl
  · intro e n h1
    rw [execute_rawErr _ _ _ _ _ _ h1]
    rfl
  · intro resp n e h1 h2
    rw [execute_parseErr _ _ _ _ _ _ _ h1 h2]
    rfl

/-- C7: every operation satisfies the error-propagation contract for every
failure mode — admission cancellation, transport error, decode error: the
failing step's error is returned to the caller unchanged, nothing is retried
(at most one network call and one decode per run), no error is substituted by
a default or swallowed. -/
theorem C7_errors_propagate_unchanged (α : Type) [Inhabited α] :
    (∀ (h : Handle) (ctx : Context) (pf : RawResponse → Except Err (ParsedResponse α)),
        PropagatesErrors ctx
          ((h.client.V4.GetSeasonRewards).invoke ((h.client.Limiter).Wrap ctx) h.id) pf
          (Handle.Rewards h ctx pf) RewardsResponse.mk) ∧
    (∀ (h : Handle) (ctx : Context) (pf : RawResponse → Except Err (ParsedResponse α)),
        PropagatesErrors ctx
          ((h.client.V4.GetSeasonUserRank).invoke ((h.client.Limiter).Wrap ctx) h.id) pf
          (Handle.UserRank h ctx pf) UserRankResponse.mk) ∧
    (∀ (h : Handle) (ctx : Context) (pf : RawResponse → Except Err (ParsedResponse α)),
        PropagatesErrors ctx
          ((h.client.V4.GetSeasonUserFollowers).invoke ((h.client.Limiter).Wrap ctx) h.id) pf
          (Handle.UserFollowers h ctx pf) UserFollowersResponse.mk) ∧
    (∀ (s : Service) (ctx : Context) (pf : RawResponse → Except Err (ParsedResponse α)),
        PropagatesErrors ctx
          ((s.base.Client.V4.GetSeasonList).invoke ((s.base.Client.Limiter).Wrap ctx) ()) pf
          (Service.List s ctx pf) ListResponse.mk) ∧
    (∀ (s : Service) (ctx : Context) (pf : RawResponse → Except Err (ParsedResponse α)),
        PropagatesErrors ctx
          ((s.base.Client.V4.GetSeasonMachines).invoke ((s.base.Client.Limiter).Wrap ctx) ()) pf
          (Service.Machines s ctx pf) MachinesResponse.mk) ∧
    (∀ (s : Service) (ctx : Context) (pf : RawResponse → Except Err (ParsedResponse α)),
        PropagatesErrors ctx
          ((s.base.Client.V4.GetSeasonMachineActive).invoke
            ((s.base.Client.Limiter).Wrap ctx) ()) pf
          (Service.ActiveMachine s ctx pf) ActiveMachineResponse.mk) := by
  refine ⟨fun h ctx pf => ?_, fun h ctx pf => ?_, fun h ctx pf => ?_,
    fun s ctx pf => ?_, fun s ctx pf => ?_, fun s ctx pf => ?_⟩
  · rw [rewards_pack]
    exact execute_propagates _ ctx _ pf h RewardsResponse.mk
      (Endpoint.invoke_snd_le_one _ _ _) (fun hc => Endpoint.invoke_cancelled _ _ _ hc)
  · rw [userRank_pack]
    exact execute_propagates _ ctx _ pf h UserRankResponse.mk
      (Endpoint.invoke_snd_le_one _ _ _) (fun hc => Endpoint.invoke_cancelled _ _ _ hc)
  · rw [userFollowers_pack]
    exact execute_propagates _ ctx _ pf h UserFollowersResponse.mk
      (Endpoint.invoke_snd_le_one _ _ _) (fun hc => Endpoint.invoke_cancelled _ _ _ hc)
  · rw [list_pack]
    exact execute_propagates _ ctx _ pf s ListResponse.mk
      (Endpoint.invoke_snd_le_one _ _ _) (fun hc => Endpoint.invoke_cancelled _ _ _ hc)
  · rw [machines_pack]
    exact execute_propagates _ ctx _ pf s MachinesResponse.mk
      (Endpoint.invoke_snd_le_one _ _ _) (fun hc => Endpoint.invoke_cancelled _ _ _ hc)
  · rw [activeMachine_pack]
    exact execute_propagates _ ctx _ pf s ActiveMachineResponse.mk
      (Endpoint.invoke_snd_le_one _ _ _) (fun hc => Endpoint.invoke_cancelled _ _ _ hc)

/-- C9: on the success path every operation dereferences `parsed.JSON200`
without a nil check: when `common.Parse` succeeds with a nil `JSON200` the
operation panics with a nil-pointer dereference; and under the precondition
that every successful parse has a non-nil `JSON200`, the operation is
panic-free. -/
theorem C9_nil_json200_panics (α : Type) [Inhabited α] :
    (∀ (h : Handle) (ctx : Context) (pf : RawResponse → Except Err (ParsedResponse α)),
        (∀ (resp : RawResponse) (n : Nat) (parsed : ParsedResponse α),
            (h.client.V4.GetSeasonRewards).invoke ((h.client.Limiter).Wrap ctx) h.id =
              (Except.ok resp, n) →
            pf resp = Except.ok parsed → parsed.JSON200 = none →
            (Handle.Rewards h ctx pf).result = GoResult.panic) ∧
        ((∀ (resp : RawResponse) (parsed : ParsedResponse α),
            pf resp = Except.ok parsed → parsed.JSON200 ≠ none) →
          (Handle.Rewards h ctx pf).result ≠ GoResult.panic)) ∧
    (∀ (h : Handle) (ctx : Context) (pf : RawResponse → Except Err (ParsedResponse α)),
        (∀ (resp : RawResponse) (n : Nat) (parsed : ParsedResponse α),
            (h.client.V4.GetSeasonUserRank).invoke ((h.client.Limiter).Wrap ctx) h.id =
              (Except.ok resp, n) →
            pf resp = Except.ok parsed → parsed.JSON200 = none →
            (Handle.UserRank h ctx pf).result = GoResult.panic) ∧
        ((∀ (resp : RawResponse) (parsed : ParsedResponse α),
            pf resp = Except.ok parsed → parsed.JSON200 ≠ none) →
          (Handle.UserRank h ctx pf).result ≠ GoResult.panic)) ∧
    (∀ (h : Handle) (ctx : Context) (pf : RawResponse → Except Err (ParsedResponse α)),
        (∀ (resp : RawResponse) (n : Nat) (parsed : ParsedResponse α),
            (h.client.V4.GetSeasonUserFollowers).invoke ((h.client.Limiter).Wrap ctx) h.id =
              (Except.ok resp, n) →
            pf resp = Except.ok parsed → parsed.JSON200 = none →
            (Handle.UserFollowers h ctx pf).result = GoResult.panic) ∧
        ((∀ (resp : RawResponse) (parsed : ParsedResponse α),
            pf resp = Except.ok parsed → parsed.JSON200 ≠ none) →
          (Handle.UserFollowers h ctx pf).result ≠ GoResult.panic)) ∧
    (∀ (s : Service) (ctx : Context) (pf : RawResponse → Except Err (ParsedResponse α)),
        (∀ (resp : RawResponse) (n : Nat) (parsed : ParsedResponse α),
            (s.base.Client.V4.GetSeasonList).invoke ((s.base.Client.Limiter).Wrap ctx) () =
              (Except.ok resp, n) →
            pf resp = Except.ok parsed → parsed.JSON200 = none →
            (Service.List s ctx pf).result = GoResult.panic) ∧
        ((∀ (resp : RawResponse) (parsed : ParsedResponse α),
            pf resp = Except.ok parsed → parsed.JSON200 ≠ none) →
          (Service.List s ctx pf).result ≠ GoResult.panic)) ∧
    (∀ (s : Service) (ctx : Context) (pf : RawResponse → Except Err (ParsedResponse α)),
        (∀ (resp : RawResponse) (n : Nat) (parsed : ParsedResponse α),
            (s.base.Client.V4.GetSeasonMachines).invoke ((s.base.Client.Limiter).Wrap ctx) () =
              (Except.ok resp, n) →
            pf resp = Except.ok parsed → parsed.JSON200 = none →
            (Service.Machines s ctx pf).result = GoResult.panic) ∧
        ((∀ (resp : RawResponse) (parsed : ParsedResponse α),
            pf resp = Except.ok parsed → parsed.JSON200 ≠ none) →
          (Service.Machines s ctx pf).result ≠ GoResult.panic)) ∧
    (∀ (s : Service) (ctx : Context) (pf : RawResponse → Except Err (ParsedResponse α)),
        (∀ (resp : RawResponse) (n : Nat) (parsed : ParsedResponse α),
            (s.base.Client.V4.GetSeasonMachineActive).invoke
              ((s.base.Client.Limiter).Wrap ctx) () = (Except.ok resp, n) →
            pf resp = Except.ok parsed → parsed.JSON200 = none →
            (Service.ActiveMachine s ctx pf).result = GoResult.panic) ∧
        ((∀ (resp : RawResponse) (parsed : ParsedResponse α),
            pf resp = Except.ok parsed → parsed.JSON200 ≠ none) →
          (Service.ActiveMachine s ctx pf).result ≠ GoResult.panic)) := by
  refine ⟨fun h ctx pf => ⟨fun resp n parsed h1 h2 h3 => ?_, fun hpf hpan => ?_⟩,
    fun h ctx pf => ⟨fun resp n parsed h1 h2 h3 => ?_, fun hpf hpan => ?_⟩,
    fun h ctx pf => ⟨fun resp n parsed h1 h2 h3 => ?_, fun hpf hpan => ?_⟩,
    fun s ctx pf => ⟨fun resp n parsed h1 h2 h3 => ?_, fun hpf hpan => ?_⟩,
    fun s ctx pf => ⟨fun resp n parsed h1 h2 h3 => ?_, fun hpf hpan => ?_⟩,
    fun s ctx pf => ⟨fun resp n parsed h1 h2 h3 => ?_, fun hpf hpan => ?_⟩⟩
  · rw [rewards_pack, execute_nilPanic (h.client.Limiter) ctx
      (fun c => (h.client.V4.GetSeasonRewards).invoke c h.id) pf resp n parsed h1 h2 h3]
    rfl
  · rw [rewards_pack] at hpan
    exact execute_no_panic _ _ _ _ hpf ((packOut_panic_iff _ _ _).1 hpan)
  · rw [userRank_pack, execute_nilPanic (h.client.Limiter) ctx
      (fun c => (h.client.V4.GetSeasonUserRank).invoke c h.id) pf resp n parsed h1 h2 h3]
    rfl
  · rw [userRank_pack] at hpan
    exact execute_no_panic _ _ _ _ hpf ((packOut_panic_iff _ _ _).1 hpan)
  · rw [userFollowers_pack, execute_nilPanic (h.client.Limiter) ctx
      (fun c => (h.client.V4.GetSeasonUserFollowers).invoke c h.id) pf resp n parsed h1 h2 h3]
    rfl
  · rw [userFollowers_pack] at hpan
    exact execute_no_panic _ _ _ _ hpf ((packOut_panic_iff _ _ _).1 hpan)
  · rw [list_pack, execute_nilPanic (s.base.Client.Limiter) ctx
      (fun c => (s.base.Client.V4.GetSeasonList).invoke c ()) pf resp n parsed h1 h2 h3]
    rfl
  · rw [list_pack] at hpan
    exact execute_no_panic _ _ _ _ hpf ((packOut_panic_iff _ _ _).1 hpan)
  · rw [machines_pack, execute_nilPanic (s.base.Client.Limiter) ctx
      (fun c => (s.base.Client.V4.GetSeasonMachines).invoke c ()) pf resp n parsed h1 h2 h3]
    rfl
  · rw [machines_pack] at hpan
    exact execute_no_panic _ _ _ _ hpf ((packOut_panic_iff _ _ _).1 hpan)
  · rw [activeMachine_pack, execute_nilPanic (s.base.Client.Limiter) ctx
      (fun c => (s.base.Client.V4.GetSeasonMachineActive).invoke c ()) pf resp n parsed h1 h2 h3]
    rfl
  · rw [activeMachine_pack] at hpan
    exact execute_no_panic _ _ _ _ hpf ((packOut_panic_iff _ _ _).1 hpan)

/-! Concrete fixtures for the witnesses: a raw response, a v4 API whose
endpoints all fail with a transport error, one whose endpoints all succeed,
and three stub parse functions (success, decode failure, success with nil
`JSON200`). -/

/-- A concrete raw response: HTTP 200 with a two-byte body. -/
def respW : RawResponse := ⟨200, [1, 2]⟩

/-- A v4 API whose endpoints all fail with `Err.transport 7`. -/
def v4ErrW : V4Api :=
  ⟨⟨fun _ => Except.error (Err.transport 7)⟩, ⟨fun _ => Except.error (Err.transport 7)⟩,
   ⟨fun _ => Except.error (Err.transport 7)⟩, ⟨fun _ => Except.error (Err.transport 7)⟩,
   ⟨fun _ => Except.error (Err.transport 7)⟩, ⟨fun _ => Except.error (Err.transport 7)⟩⟩

/-- A v4 API whose endpoints all answer with `respW`. -/
def v4OkW : V4Api :=
  ⟨⟨fun _ => Except.ok respW⟩, ⟨fun _ => Except.ok respW⟩, ⟨fun _ => Except.ok respW⟩,
   ⟨fun _ => Except.ok respW⟩, ⟨fun _ => Except.ok respW⟩, ⟨fun _ => Except.ok respW⟩⟩

/-- A handle on season 5 over the transport-failing client. -/
def handleErrW : Handle := ⟨⟨v4ErrW⟩, 5⟩

/-- A handle on season 5 over the succeeding client. -/
def handleOkW : Handle := ⟨⟨v4OkW⟩, 5⟩

/-- A live (not cancelled) context. -/
def ctxLiveW : Context := ⟨false⟩

/-- An already-cancelled context. -/
def ctxCancelledW : Context := ⟨true⟩

/-- A parse function that always succeeds with payload `42`. -/
def pfOkW : RawResponse → Except Err (ParsedResponse Nat) :=
  fun _ => Except.ok ⟨some ⟨42⟩⟩

/-- A parse function that always fails with `Err.decode 3`. -/
def pfErrW : RawResponse → Except Err (ParsedResponse Nat) :=
  fun _ => Except.error (Err.decode 3)

/-- A parse function that succeeds with a nil `JSON200`. -/
def pfNilW : RawResponse → Except Err (ParsedResponse Nat) :=
  fun _ => Except.ok ⟨none⟩

/-- Witness for C1: at a transport-failing endpoint, the returned envelope's
`Data` is the zero value. -/
theorem C1_error_implies_zero_data_witness :
    (RewardsResponse.mk 0 ResponseMeta.zero : RewardsResponse Nat).Data = default :=
  (C1_error_implies_zero_data Nat).1 handleErrW ctxLiveW pfOkW
    (RewardsResponse.mk 0 ResponseMeta.zero) (Err.transport 7) ⟨1, 0⟩ handleErrW (by rfl)

/-- Witness for C2 at a transport-failing endpoint on a live context. -/
theorem C2_transport_error_envelope_witness :
    Handle.Rewards handleErrW ctxLiveW pfOkW =
      ⟨GoResult.ret { Data := default, ResponseMeta := ResponseMeta.zero }
        (some (Err.transport 7)), ⟨1, 0⟩, handleErrW⟩ :=
  (C2_transport_error_envelope Nat).1 handleErrW ctxLiveW pfOkW (Err.transport 7) 1 (by rfl)

/-- Witness for C3 at a succeeding endpoint with a failing parse function. -/
theorem C3_decode_error_keeps_meta_witness :
    Handle.Rewards handleOkW ctxLiveW pfErrW =
        ⟨GoResult.ret { Data := default, ResponseMeta := (Parse respW pfErrW).2 }
          (some (Err.decode 3)), ⟨1, 1⟩, handleOkW⟩ ∧
      (Parse respW pfErrW).2.StatusCode = respW.statusCode :=
  (C3_decode_error_keeps_meta Nat).1 handleOkW ctxLiveW pfErrW respW 1 (Err.decode 3)
    (by rfl) (by rfl)

/-- Witness for C4 at a succeeding endpoint with a succeeding parse function. -/
theorem C4_success_envelope_witness :
    Handle.Rewards handleOkW ctxLiveW pfOkW =
      ⟨GoResult.ret { Data := (42 : Nat), ResponseMeta := (Parse respW pfOkW).2 } none,
        ⟨1, 1⟩, handleOkW⟩ :=
  (C4_success_envelope Nat).1 handleOkW ctxLiveW pfOkW respW 1 ⟨some ⟨42⟩⟩ ⟨42⟩
    (by rfl) (by rfl) (by rfl)

/-- Witness for C5 at an already-cancelled context. -/
theorem C5_cancelled_context_no_network_witness :
    Handle.Rewards handleErrW ctxCancelledW pfOkW =
      ⟨GoResult.ret { Data := default, ResponseMeta := ResponseMeta.zero }
        (some Err.canceled), ⟨0, 0⟩, handleErrW⟩ :=
  (C5_cancelled_context_no_network Nat).1 handleErrW ctxCancelledW pfOkW (by rfl)

/-- Witness for C7: the error-propagation contract at a concrete handle,
context and parse function. -/
theorem C7_errors_propagate_unchanged_witness :
    PropagatesErrors ctxLiveW
      ((handleErrW.client.V4.GetSeasonRewards).invoke
        ((handleErrW.client.Limiter).Wrap ctxLiveW) handleErrW.id) pfOkW
      (Handle.Rewards handleErrW ctxLiveW pfOkW) RewardsResponse.mk :=
  (C7_errors_propagate_unchanged Nat).1 handleErrW ctxLiveW pfOkW

/-- Witness for C9: at a parse function that succeeds with a nil `JSON200`,
the operation panics. -/
theorem C9_nil_json200_panics_witness :
    (Handle.Rewards handleOkW ctxLiveW pfNilW).result = GoResult.panic :=
  ((C9_nil_json200_panics Nat).1 handleOkW ctxLiveW pfNilW).1 respW 1 ⟨none⟩
    (by rfl) (by rfl) (by rfl)

end GoHTB
